import Mathlib

/-!
Verification development for the zyndai n8n nodes package, centred on the
X402 webhook payment gate.  The definitions below are shallow embeddings of
the TypeScript sources:

* `Zynd.isIpAllowed` embeds the `isIpAllowed` helper of the webhook utils
  (request admission filter, IP allowlist with its simplified CIDR check);
* `Zynd.checkResponseModeConfiguration` embeds the response-mode
  configuration check of the webhook utils;
* `Zynd.NodeTs.webhook` / `Zynd.NodeTs.handleX402Payment` embed the
  `X402Webhook.webhook` / `handleX402Payment` methods of
  `nodes/Zynd/X402Webhook.node.ts`;
* `Zynd.P2.webhook` embeds the sibling `X402Webhook.webhook` implementation
  (the `zyndX402Webhook` node variant) that carries the zero-price waiver;
* `Zynd.FormData.handleFormData` embeds the multipart capture of
  `X402Webhook.node.ts`.

External collaborators (the x402 facilitator library, the payment-header
codec, `isbot`, the n8n host) are modelled as oracles: records of functions
supplied per run.  Timestamps (`verifiedAt`/`settledAt`) are not modelled;
JavaScript string `.trim()` is modelled over ASCII whitespace.
-/

namespace Zynd

/-- ASCII whitespace, modelling the characters stripped by JS `trim`. -/
def isSpaceChar (c : Char) : Bool :=
  c == ' ' || c == '\t' || c == '\n' || c == '\r'

/-- Trim ASCII whitespace from both ends of a character list (JS `trim`). -/
def trimChars (cs : List Char) : List Char :=
  ((cs.dropWhile isSpaceChar).reverse.dropWhile isSpaceChar).reverse

/-- Auxiliary splitter: accumulate the current field (reversed) while
scanning. -/
def splitOnCharAux (sep : Char) : List Char → List Char → List (List Char)
  | [], acc => [acc.reverse]
  | c :: rest, acc =>
    if c == sep then acc.reverse :: splitOnCharAux sep rest []
    else splitOnCharAux sep rest (c :: acc)

/-- Split a character list on a separator character (JS `split`). -/
def splitOnCharL (sep : Char) (cs : List Char) : List (List Char) :=
  splitOnCharAux sep cs []

/-- Index of the last occurrence of `c` in `cs` (JS `lastIndexOf`),
`none` when absent. -/
def lastIndexOfChar (c : Char) (cs : List Char) : Option Nat :=
  match (cs.reverse).findIdx? (fun d => d == c) with
  | some i => some (cs.length - 1 - i)
  | none => none

/-- Embedding of `isIpAllowed` from the webhook utils
(`AgentPublisher.node.ts` concatenation, the `webhook-utils` module).
The TS `allowlist` parameter has type `string | string[] | undefined`; the
webhook always passes `options.ipWhitelist` (a string or `undefined`),
modelled as `Option String`, so the `string[]` branch never arises and the
comma-split branch is taken.  JS truthiness of the `ip` argument
(`if (ip && ...)`) makes the empty string behave like an absent ip.
The CIDR branch reproduces the source verbatim: the entry is split on `/`,
the network part is cut at its last `.` (JS `substring(0, -1)` clamps to
the empty string when there is no dot), and the client ip is tested with
`startsWith` against that string. -/
def isIpAllowed (allowlist : Option String) (ips : List String) (ip : Option String) : Bool :=
  match allowlist with
  | none => true
  | some wl =>
    if wl = "" then true
    else
      let entries : List String :=
        (splitOnCharL ',' wl.data).map (fun cs => String.mk (trimChars cs))
      let ipTruthy : Option String := match ip with
        | some i => if i = "" then none else some i
        | none => none
      if (match ipTruthy with | some i => entries.contains i | none => false) then true
      else if ips.any (fun e => entries.contains e) then true
      else entries.any (fun entry =>
        if entry.data.contains '/' then
          let network := entry.data.takeWhile (fun c => c != '/')
          let netCut : List Char :=
            match lastIndexOfChar '.' network with
            | some i => network.take i
            | none => []
          match ipTruthy with
          | some i => netCut.isPrefixOf i.data
          | none => false
        else false)

/-- Parse a decimal digit string into a number; `none` if empty or
non-digit. -/
def parseNatDigits (cs : List Char) : Option Nat :=
  if cs ≠ [] && cs.all (fun c => c.isDigit) then
    some (cs.foldl (fun n c => 10 * n + (c.toNat - '0'.toNat)) 0)
  else none

/-- Parse one IPv4 octet (0-255). -/
def parseOctet (cs : List Char) : Option Nat :=
  match parseNatDigits cs with
  | some n => if n ≤ 255 then some n else none
  | none => none

/-- Parse a dotted-quad IPv4 address into its 32-bit value. -/
def ipv4ToNat (s : String) : Option Nat :=
  match (splitOnCharL '.' s.data).map parseOctet with
  | [some a, some b, some c, some d] =>
    some (a * 2 ^ 24 + b * 2 ^ 16 + c * 2 ^ 8 + d)
  | _ => none

/-- Modelled from the spec: correct CIDR network/prefix matching, the
behaviour section 4.1 demands of the admission filter ("CIDR matching must
correctly evaluate the network/prefix").  Not present in the source, which
uses a string-prefix shortcut instead. -/
def cidrContains (entry ip : String) : Bool :=
  match splitOnCharL '/' entry.data with
  | [net, len] =>
    match ipv4ToNat (String.mk net), ipv4ToNat ip, parseNatDigits len with
    | some n, some a, some l =>
      if l ≤ 32 then n / 2 ^ (32 - l) = a / 2 ^ (32 - l) else false
    | _, _, _ => false
  | _ => false

/-- True when a Respond-to-Webhook node is among the child nodes
(`connectedNodes.some(...)` in `checkResponseModeConfiguration`). -/
def respondToWebhookConnected (connectedNodeTypes : List String) : Bool :=
  connectedNodeTypes.any
    (fun t => t == "n8n-nodes-base.respondToWebhook" || t == "CUSTOM.respondToWebhook")

/-- The error thrown for `responseNode` mode without a connected
responder. -/
def noResponderMessage : String :=
  "No Respond to Webhook node found in the workflow. Insert a Respond to Webhook node or choose another option for the \"Respond\" parameter."

/-- The error thrown for a connected responder with a response mode that
will never use it. -/
def unusedResponderMessage : String :=
  "Unused Respond to Webhook node found in the workflow. Set the \"Respond\" parameter to \"Using Respond to Webhook Node\" or remove the Respond to Webhook node."

/-- Embedding of `checkResponseModeConfiguration` from the webhook utils:
it throws (modelled as `Except.error` with the thrown message) when
`responseMode` is `responseNode` without a connected responder, or when a
responder is connected while the mode is neither `responseNode` nor
`streaming`. -/
def checkResponseModeConfiguration (responseMode : String)
    (connectedNodeTypes : List String) : Except String Unit :=
  let connected := respondToWebhookConnected connectedNodeTypes
  if !connected && responseMode == "responseNode" then
    Except.error noResponderMessage
  else if connected && !(responseMode == "responseNode" || responseMode == "streaming") then
    Except.error unusedResponderMessage
  else
    Except.ok ()

/-- The zero-price test of the sibling webhook implementation:
`/^\$?0+(\.0+)?$/.test(price.trim())`.  An optional leading `$`, then all
zero digits, optionally a decimal point followed by all zero digits. -/
def allZeroDigits (cs : List Char) : Bool :=
  !cs.isEmpty && cs.all (fun c => c == '0')

/-- `isZeroPrice price` embeds the regex test above, applied to the trimmed
price string. -/
def isZeroPrice (price : String) : Bool :=
  let t := trimChars price.data
  let t := match t with
    | '$' :: rest => rest
    | other => other
  match splitOnCharL '.' t with
  | [a] => allZeroDigits a
  | [a, b] => allZeroDigits a && allZeroDigits b
  | _ => false

/-- The networks offered by the node's `network` option. -/
inductive Network
  | base
  | baseSepolia
  | ethereum
  | sepolia
  | polygon
  | arbitrum
  | arbitrumSepolia
  | optimism
deriving DecidableEq

/-- EIP-712 token metadata carried in `asset.eip712` and copied into the
requirements' `extra` field. -/
structure Eip712Meta where
  name : String
  version : String
deriving DecidableEq

/-- The asset returned by `processPriceToAtomicAmount`; `eip712 = none`
models an asset object without the `eip712` property. -/
structure Asset where
  address : String
  eip712 : Option Eip712Meta
deriving DecidableEq

/-- Result of the external `processPriceToAtomicAmount` (x402/shared):
either an object with an `error` key, or the atomic amount and asset. -/
inductive PriceResult
  | error (msg : String)
  | ok (maxAmountRequired : String) (asset : Asset)
deriving DecidableEq

/-- PaymentRequirements as constructed by the webhook (the `outputSchema`
field is always `undefined` and omitted). -/
structure PaymentRequirements where
  scheme : String
  network : Network
  maxAmountRequired : String
  resource : String
  description : String
  mimeType : String
  payTo : String
  maxTimeoutSeconds : Nat
  asset : String
  extra : Eip712Meta
deriving DecidableEq

/-- The decoded client payment; opaque beyond its protocol version (the
webhook overwrites `x402Version` after decoding). -/
structure PaymentPayload where
  x402Version : Nat
  payload : String
deriving DecidableEq

/-- VerifyResult from the facilitator. -/
structure VerifyResult where
  isValid : Bool
  invalidReason : Option String := none
  payer : Option String := none
deriving DecidableEq

/-- SettleResult from the facilitator, opaque beyond being convertible to a
response header by `settleResponseHeader`. -/
structure SettleResult where
  receipt : String
deriving DecidableEq

/-- Oracles for the external x402 library and facilitator service, bound to
the configured facilitator URL.  Thrown errors are modelled as
`Except.error` carrying the error's `.message` (the empty string models a
falsy message, which the source replaces with a fallback). -/
structure Env where
  processPriceToAtomicAmount : String → Network → PriceResult
  decodePayment : String → Except String PaymentPayload
  verify : PaymentPayload → PaymentRequirements → Except String VerifyResult
  settle : PaymentPayload → PaymentRequirements → Except String SettleResult
  settleResponseHeader : SettleResult → String

/-- JS `x || fallback` on a string-typed error message. -/
def orFallback (s fallback : String) : String :=
  if s = "" then fallback else s

/-- The JSON bodies the webhook writes, by shape. -/
inductive RespBody
  | configError (details : String)
  | paymentError (x402Version : Nat) (errMsg : Option String)
      (accepts : List PaymentRequirements) (payer : Option String)
  | paymentOk (message : String)
  | processingError (message : String)
  | text (s : String)
  | freeData (body headers query : String)
  | streamOpen
deriving DecidableEq

/-- One committed HTTP response write (`writeHead` + `end`, or
`writeHead` + `flushHeaders` for the streaming open). -/
structure HttpWrite where
  status : Nat
  headers : List (String × String)
  body : RespBody
deriving DecidableEq

/-- Which outbound payment operations the run performed:
`processPrice` (requirements building), `verify`, an awaited `settleSync`,
and a detached background `settleAsync`. -/
structure Calls where
  processPrice : Bool
  verify : Bool
  settleSync : Bool
  settleAsync : Bool
deriving DecidableEq

/-- No payment work performed. -/
def noCalls : Calls :=
  { processPrice := false, verify := false, settleSync := false, settleAsync := false }

/-- Requirements building performed. -/
def callsP : Calls :=
  { processPrice := true, verify := false, settleSync := false, settleAsync := false }

/-- Requirements building and verification performed. -/
def callsPV : Calls :=
  { processPrice := true, verify := true, settleSync := false, settleAsync := false }

/-- Requirements, verification and an awaited settlement performed. -/
def callsPVS : Calls :=
  { processPrice := true, verify := true, settleSync := true, settleAsync := false }

/-- Requirements, verification and a detached background settlement. -/
def callsPVA : Calls :=
  { processPrice := true, verify := true, settleSync := false, settleAsync := true }

/-- Payment metadata merged into the forwarded record (`verifiedAt` /
`settledAt` timestamps are not modelled; `settled = none` models the key
being absent, as in the asynchronous branch). -/
structure PaymentMeta where
  verified : Bool
  settled : Option Bool
  network : Network
  price : String
  payTo : String
  settlementMode : String
deriving DecidableEq

/-- Terminal disposition of one webhook invocation: a thrown error
(propagated to the host), or a normal return carrying
`noWebhookResponse`, the forwarded workflow item, and `webhookResponse`. -/
inductive WebhookResult (α : Type)
  | thrown (msg : String)
  | ok (noWebhookResponse : Bool) (workflowData : Option α) (webhookResponse : Option String)
deriving DecidableEq

/-- A complete run: the HTTP writes it committed, the outbound payment
calls it made, and its terminal result. -/
structure Run (α : Type) where
  writes : List HttpWrite
  calls : Calls
  result : WebhookResult α
deriving DecidableEq

/-- Header list of every JSON response write. -/
def ctJson : List (String × String) := [("Content-Type", "application/json")]

/-- A `sendJsonResponse` write. -/
def jsonWrite (status : Nat) (body : RespBody) : HttpWrite :=
  { status := status, headers := ctJson, body := body }

/-- Headers of the streaming response open
(`writeHead(200, {...}); flushHeaders()`). -/
def streamHeaders : List (String × String) :=
  [("Content-Type", "application/json; charset=utf-8"),
   ("Transfer-Encoding", "chunked"),
   ("Cache-Control", "no-cache"),
   ("Connection", "keep-alive")]

/-- Replace the first occurrence of `pat` in a character list. -/
def replaceFirstL (pat rep : List Char) : List Char → List Char
  | [] => []
  | c :: rest =>
    if pat.isPrefixOf (c :: rest) then rep ++ (c :: rest).drop pat.length
    else c :: replaceFirstL pat rep rest

namespace NodeTs

/-- Failure of bot filtering / authentication: a `WebhookAuthorizationError`
(caught by the webhook and turned into an HTTP write) or any other thrown
error (re-thrown). -/
inductive AuthFailure
  | authError (responseCode : Nat) (message : String)
  | other (msg : String)
deriving DecidableEq

/-- Deployment-time configuration of the `x402Webhook` node
(`X402Webhook.node.ts`).  `nodeVersionTenths` encodes the node type version
times ten (10, 11, 20, 21 for 1, 1.1, 2, 2.1). -/
structure Config where
  nodeVersionTenths : Nat
  responseMode : String
  requirePayment : Bool
  facilitatorUrl : String
  serverWalletAddress : String
  price : String
  network : Network
  paymentDescription : String
  maxTimeoutSeconds : Nat
  settlementMode : String
  includePaymentDetails : Bool
  binaryData : Bool
  ignoreBots : Bool
  rawBody : Bool
  responseData : Option String
  ipWhitelist : Option String
  webhookUrl : String
  isManualMode : Bool
  connectedNodeTypes : List String
deriving DecidableEq

/-- One inbound HTTP request.  `headersTok`/`paramsTok`/`queryTok`/
`bodyTok` are opaque tokens standing for the request's header, path
parameter, query and parsed-body objects; `userAgentIsBot` is the oracle
for the external `isbot(req.headers[..])` call, and `auth` is the oracle
for `validateWebhookAuthentication` (returning the optional JWT payload). -/
structure Req where
  method : String
  ip : Option String
  ips : List String
  userAgentIsBot : Bool
  xPayment : Option String
  headersTok : String
  paramsTok : String
  queryTok : String
  bodyTok : Option String
  rawBodyTok : Option String
  contentType : Option String
  formBodyTok : Option String
  auth : Except AuthFailure (Option String)

/-- How the body of the forwarded record was captured: parsed body
(`req.body`), the empty object of the binary-staging path, or the decoded
multipart fields (the per-file staging itself is modelled in detail by
`Zynd.FormData.handleFormData`). -/
inductive CapturedBody
  | parsed (tok : Option String)
  | emptyObj
  | form (tok : Option String)
deriving DecidableEq

/-- The forwarded workflow record: captured request data plus the fields
added by `setupOutputConnection` and the merged payment metadata. -/
structure Item where
  headers : String
  params : String
  query : String
  body : CapturedBody
  rawBinary : Bool
  webhookUrl : String
  executionMode : String
  jwt : Option String
  payment : Option PaymentMeta
deriving DecidableEq

/-- The effect of `setupOutputConnection`: in manual (test) mode the
webhook URL has `/webhook/` replaced by `/webhook-test/`, and
`executionMode`/`jwtPayload` are stamped onto the record. -/
def applyOutput (cfg : Config) (jwt : Option String) (item : Item) : Item :=
  { item with
    webhookUrl :=
      if cfg.isManualMode then
        String.mk (replaceFirstL "/webhook/".data "/webhook-test/".data cfg.webhookUrl.data)
      else cfg.webhookUrl,
    executionMode := if cfg.isManualMode then "test" else "production",
    jwt := jwt }

/-- Base record (headers/params/query of the request, no payment data). -/
def baseItem (req : Req) (body : CapturedBody) (raw : Bool) : Item :=
  { headers := req.headersTok, params := req.paramsTok, query := req.queryTok,
    body := body, rawBinary := raw, webhookUrl := "", executionMode := "",
    jwt := none, payment := none }

/-- Request capture inside `handleX402Payment` (three branches:
`options.binaryData`, multipart content type, plain body with optional raw
binary). -/
def capturePayment (cfg : Config) (req : Req) : Item :=
  if cfg.binaryData then baseItem req CapturedBody.emptyObj false
  else if req.contentType = some "multipart/form-data" then
    baseItem req (CapturedBody.form req.formBodyTok) false
  else baseItem req (CapturedBody.parsed req.bodyTok) cfg.rawBody

/-- Request capture of the standard (no payment) path, which additionally
falls back to binary staging on node versions above 1 when the body is
absent and raw-body mode is off. -/
def captureStandard (cfg : Config) (req : Req) : Item :=
  if cfg.binaryData then baseItem req CapturedBody.emptyObj false
  else if req.contentType = some "multipart/form-data" then
    baseItem req (CapturedBody.form req.formBodyTok) false
  else if 10 < cfg.nodeVersionTenths && req.bodyTok == none && !cfg.rawBody then
    baseItem req CapturedBody.emptyObj false
  else baseItem req (CapturedBody.parsed req.bodyTok) cfg.rawBody

/-- Payment metadata of the asynchronous branch: verified, `settled` key
absent. -/
def asyncMeta (cfg : Config) : PaymentMeta :=
  { verified := true, settled := none, network := cfg.network,
    price := cfg.price, payTo := cfg.serverWalletAddress, settlementMode := "async" }

/-- Payment metadata of the synchronous branch: verified and settled. -/
def syncMeta (cfg : Config) : PaymentMeta :=
  { verified := true, settled := some true, network := cfg.network,
    price := cfg.price, payTo := cfg.serverWalletAddress, settlementMode := "sync" }

/-- The PaymentRequirements object built by `handleX402Payment` from the
configured price/network/recipient and the asset returned by
`processPriceToAtomicAmount`. -/
def mkPaymentRequirements (cfg : Config) (amt : String) (assetAddr : String)
    (meta : Eip712Meta) : PaymentRequirements :=
  { scheme := "exact", network := cfg.network, maxAmountRequired := amt,
    resource := cfg.webhookUrl, description := cfg.paymentDescription,
    mimeType := "application/json", payTo := cfg.serverWalletAddress,
    maxTimeoutSeconds := cfg.maxTimeoutSeconds, asset := assetAddr, extra := meta }

/-- Embedding of `handleX402Payment` of `X402Webhook.node.ts`.  The outer
`try/catch` (500 "Payment processing error") is unreachable in the model:
every failure of an external call is already returned as data.  In the
asynchronous branch the detached `settle(...).then(log).catch(log)` task is
modelled by the `settleAsync` call flag: the run's writes and result never
depend on the settle oracle there, and the background task's error handler
only logs. -/
def handleX402Payment (env : Env) (cfg : Config) (req : Req) (jwt : Option String) :
    Run Item :=
  if cfg.facilitatorUrl = "" ∨ cfg.serverWalletAddress = "" then
    { writes := [jsonWrite 500 (RespBody.configError
        "Facilitator URL and Server Wallet Address are required for payment")],
      calls := noCalls, result := WebhookResult.ok true none none }
  else
    match env.processPriceToAtomicAmount cfg.price cfg.network with
    | PriceResult.error e =>
      { writes := [jsonWrite 500 (RespBody.configError e)],
        calls := callsP,
        result := WebhookResult.ok true none none }
    | PriceResult.ok amt asset =>
      match asset.eip712 with
      | none =>
        { writes := [jsonWrite 500 (RespBody.configError "Asset does not support EIP-712")],
          calls := callsP,
          result := WebhookResult.ok true none none }
      | some meta =>
        let pr := mkPaymentRequirements cfg amt asset.address meta
        match req.xPayment with
        | none =>
          { writes := [jsonWrite 402 (RespBody.paymentError 1
              (some "X-PAYMENT header is required") [pr] none)],
            calls := callsP,
            result := WebhookResult.ok true none none }
        | some hdr =>
          match env.decodePayment hdr with
          | Except.error e =>
            { writes := [jsonWrite 402 (RespBody.paymentError 1
                (some (orFallback e "Invalid or malformed payment header")) [pr] none)],
              calls := callsP,
              result := WebhookResult.ok true none none }
          | Except.ok p0 =>
            let p := { p0 with x402Version := 1 }
            match env.verify p pr with
            | Except.error e =>
              { writes := [jsonWrite 402 (RespBody.paymentError 1
                  (some (orFallback e "Payment verification failed")) [pr] none)],
                calls := callsPV,
                result := WebhookResult.ok true none none }
            | Except.ok vr =>
              if vr.isValid = false then
                { writes := [jsonWrite 402 (RespBody.paymentError 1
                    vr.invalidReason [pr] vr.payer)],
                  calls := callsPV,
                  result := WebhookResult.ok true none none }
              else
                let item0 := applyOutput cfg jwt (capturePayment cfg req)
                if cfg.settlementMode = "async" then
                  let item := { item0 with payment :=
                    if cfg.includePaymentDetails then some (asyncMeta cfg) else none }
                  if cfg.responseMode = "responseNode" then
                    { writes := [],
                      calls := callsPV,
                      result := WebhookResult.ok false (some item) none }
                  else if cfg.responseMode = "streaming" then
                    { writes := [{ status := 200, headers := streamHeaders,
                                   body := RespBody.streamOpen }],
                      calls := callsPV,
                      result := WebhookResult.ok true (some item) none }
                  else
                    { writes := [jsonWrite 200 (RespBody.paymentOk "Payment verified")],
                      calls := callsPVA,
                      result := WebhookResult.ok true (some item) none }
                else
                  match env.settle p pr with
                  | Except.error e =>
                    { writes := [jsonWrite 402 (RespBody.paymentError 1
                        (some (orFallback e "Payment settlement failed")) [pr] none)],
                      calls := callsPVS,
                      result := WebhookResult.ok true none none }
                  | Except.ok sres =>
                    let hv := env.settleResponseHeader sres
                    let item := { item0 with payment :=
                      if cfg.includePaymentDetails then some (syncMeta cfg) else none }
                    if cfg.responseMode = "responseNode" then
                      { writes := [],
                        calls := callsPVS,
                        result := WebhookResult.ok false (some item) none }
                    else if cfg.responseMode = "streaming" then
                      { writes := [{ status := 200,
                                     headers := streamHeaders ++ [("X-PAYMENT-RESPONSE", hv)],
                                     body := RespBody.streamOpen }],
                        calls := callsPVS,
                        result := WebhookResult.ok true (some item) none }
                    else
                      { writes := [{ status := 200,
                                     headers := [("Content-Type", "application/json"),
                                                 ("X-PAYMENT-RESPONSE", hv)],
                                     body := RespBody.paymentOk "Payment verified and settled" }],
                        calls := callsPVS,
                        result := WebhookResult.ok true (some item) none }

/-- The message body of a `WebhookAuthorizationError` response: the error
class lives outside `src/`, so its default message text is not modelled. -/
def authErrorBody (message : String) : RespBody := RespBody.text message

/-- The webhook body after the response-mode configuration check: IP
allowlist, bot filter, authentication, then payment handling or the
standard capture path. -/
def webhookAfterCheck (env : Env) (cfg : Config) (req : Req) : Run Item :=
  if isIpAllowed cfg.ipWhitelist req.ips req.ip = false then
    { writes := [{ status := 403, headers := [],
                   body := RespBody.text "IP is not whitelisted to access the webhook!" }],
      calls := noCalls, result := WebhookResult.ok true none none }
  else if cfg.ignoreBots && req.userAgentIsBot then
    { writes := [{ status := 403,
                   headers := [("WWW-Authenticate", "Basic realm=\"Webhook\"")],
                   body := authErrorBody "" }],
      calls := noCalls, result := WebhookResult.ok true none none }
  else
    match req.auth with
    | Except.error (AuthFailure.authError code message) =>
      { writes := [{ status := code,
                     headers := [("WWW-Authenticate", "Basic realm=\"Webhook\"")],
                     body := authErrorBody message }],
        calls := noCalls, result := WebhookResult.ok true none none }
    | Except.error (AuthFailure.other msg) =>
      { writes := [], calls := noCalls, result := WebhookResult.thrown msg }
    | Except.ok jwt =>
      if cfg.requirePayment then handleX402Payment env cfg req jwt
      else
        let item := applyOutput cfg jwt (captureStandard cfg req)
        if cfg.responseMode = "streaming" then
          { writes := [{ status := 200, headers := streamHeaders,
                         body := RespBody.streamOpen }],
            calls := noCalls, result := WebhookResult.ok true (some item) none }
        else
          { writes := [], calls := noCalls,
            result := WebhookResult.ok false (some item) cfg.responseData }

/-- Embedding of `X402Webhook.webhook`: on node versions at least 2 (the
registered node type always contains `x402Webhook`, so the type condition
holds) the response-mode configuration is checked first and its error
propagates as a throw before any request processing. -/
def webhook (env : Env) (cfg : Config) (req : Req) : Run Item :=
  if 20 ≤ cfg.nodeVersionTenths then
    match checkResponseModeConfiguration cfg.responseMode cfg.connectedNodeTypes with
    | Except.error msg =>
      { writes := [], calls := noCalls, result := WebhookResult.thrown msg }
    | Except.ok _ => webhookAfterCheck env cfg req
  else webhookAfterCheck env cfg req

end NodeTs

namespace P2

/-- Deployment-time configuration of the `zyndX402Webhook` sibling node
(the `part_002` implementation).  The `options` collection fields are
`Option`-typed: an absent key is `none`, and the source applies JS
truthiness (`||` defaults, `!== false`, ternaries) to them. -/
structure Config where
  responseMode : String
  responseCode : Nat
  price : String
  facilitatorUrl : String
  serverWalletAddress : String
  network : Network
  requirePaymentOpt : Option Bool
  descriptionOpt : Option String
  mimeTypeOpt : Option String
  maxTimeoutSecondsOpt : Option Nat
  includePaymentDetailsOpt : Option Bool
  settlementModeOpt : Option String
  webhookUrl : String
deriving DecidableEq

/-- Inbound request as read through `getBodyData` / `getHeaderData` /
`getQueryData`; tokens stand for the opaque objects. -/
structure Req where
  xPayment : Option String
  bodyTok : String
  headersTok : String
  queryTok : String
deriving DecidableEq

/-- The forwarded workflow record of this implementation. -/
structure Item where
  body : String
  headers : String
  query : String
  payment : Option PaymentMeta
deriving DecidableEq

/-- JS `(options.x as string) || default`: absent or empty falls back. -/
def orStrOpt (o : Option String) (fallback : String) : String :=
  match o with
  | some s => if s = "" then fallback else s
  | none => fallback

/-- JS `(options.x as number) || default`: absent or zero falls back. -/
def orNatOpt (o : Option Nat) (fallback : Nat) : Nat :=
  match o with
  | some n => if n = 0 then fallback else n
  | none => fallback

/-- `options.requirePayment !== false`. -/
def requirePaymentOf (cfg : Config) : Bool :=
  cfg.requirePaymentOpt ≠ some false

/-- The record of the free path (`{ body, headers, query }`, no payment
metadata). -/
def freeItem (req : Req) : Item :=
  { body := req.bodyTok, headers := req.headersTok, query := req.queryTok,
    payment := none }

/-- PaymentRequirements as built by this implementation (description and
MIME type come from the options collection with `||` defaults). -/
def mkRequirements (cfg : Config) (amt : String) (assetAddr : String)
    (meta : Eip712Meta) : PaymentRequirements :=
  { scheme := "exact", network := cfg.network, maxAmountRequired := amt,
    resource := cfg.webhookUrl,
    description := orStrOpt cfg.descriptionOpt "Access to webhook endpoint",
    mimeType := orStrOpt cfg.mimeTypeOpt "application/json",
    payTo := cfg.serverWalletAddress,
    maxTimeoutSeconds := orNatOpt cfg.maxTimeoutSecondsOpt 60,
    asset := assetAddr, extra := meta }

/-- Payment metadata of the asynchronous branch
(`options.includePaymentDetails ? {...} : {}` — only a truthy option adds
it). -/
def asyncMeta (cfg : Config) : PaymentMeta :=
  { verified := true, settled := none, network := cfg.network,
    price := cfg.price, payTo := cfg.serverWalletAddress, settlementMode := "async" }

/-- Payment metadata of the synchronous branch. -/
def syncMeta (cfg : Config) : PaymentMeta :=
  { verified := true, settled := some true, network := cfg.network,
    price := cfg.price, payTo := cfg.serverWalletAddress, settlementMode := "sync" }

/-- Embedding of the sibling `X402Webhook.webhook` (`part_002`): the
zero-price waiver, then the payment gate.  The detached
`settle(...).catch(() => make it empty)` of the asynchronous branch is fired
before the response-mode branch, so `settleAsync` is set in every response
mode; its outcome is swallowed and the run never depends on the settle
oracle there.  The outer `try/catch` (500 "Payment processing error") is
unreachable in the model. -/
def webhook (env : Env) (cfg : Config) (req : Req) : Run Item :=
  if !requirePaymentOf cfg || isZeroPrice cfg.price then
    if cfg.responseMode = "responseNode" then
      { writes := [], calls := noCalls,
        result := WebhookResult.ok false (some (freeItem req)) none }
    else
      { writes := [{ status := cfg.responseCode, headers := ctJson,
                     body := RespBody.freeData req.bodyTok req.headersTok req.queryTok }],
        calls := noCalls, result := WebhookResult.ok true none none }
  else
    if cfg.facilitatorUrl = "" then
      { writes := [jsonWrite 500 (RespBody.configError "Facilitator URL is required")],
        calls := noCalls, result := WebhookResult.ok true none none }
    else
      match env.processPriceToAtomicAmount cfg.price cfg.network with
      | PriceResult.error e =>
        { writes := [jsonWrite 500 (RespBody.configError e)],
          calls := callsP, result := WebhookResult.ok true none none }
      | PriceResult.ok amt asset =>
        match asset.eip712 with
        | none =>
          { writes := [jsonWrite 500 (RespBody.configError "Asset does not support EIP-712")],
            calls := callsP, result := WebhookResult.ok true none none }
        | some meta =>
          let pr := mkRequirements cfg amt asset.address meta
          match req.xPayment with
          | none =>
            { writes := [jsonWrite 402 (RespBody.paymentError 1
                (some "X-PAYMENT header is required") [pr] none)],
              calls := callsP, result := WebhookResult.ok true none none }
          | some hdr =>
            match env.decodePayment hdr with
            | Except.error e =>
              { writes := [jsonWrite 402 (RespBody.paymentError 1
                  (some (orFallback e "Invalid or malformed payment header")) [pr] none)],
                calls := callsP, result := WebhookResult.ok true none none }
            | Except.ok p0 =>
              let p := { p0 with x402Version := 1 }
              match env.verify p pr with
              | Except.error e =>
                { writes := [jsonWrite 402 (RespBody.paymentError 1
                    (some (orFallback e "Payment verification failed")) [pr] none)],
                  calls := callsPV, result := WebhookResult.ok true none none }
              | Except.ok vr =>
                if vr.isValid = false then
                  { writes := [jsonWrite 402 (RespBody.paymentError 1
                      vr.invalidReason [pr] vr.payer)],
                    calls := callsPV, result := WebhookResult.ok true none none }
                else
                  if orStrOpt cfg.settlementModeOpt "sync" = "async" then
                    let item : Item :=
                      { body := req.bodyTok, headers := req.headersTok,
                        query := req.queryTok,
                        payment := if cfg.includePaymentDetailsOpt = some true
                                   then some (asyncMeta cfg) else none }
                    if cfg.responseMode = "responseNode" then
                      { writes := [], calls := callsPVA,
                        result := WebhookResult.ok false (some item) none }
                    else
                      { writes := [{ status := cfg.responseCode, headers := ctJson,
                                     body := RespBody.paymentOk "Payment verified" }],
                        calls := callsPVA,
                        result := WebhookResult.ok true (some item) none }
                  else
                    match env.settle p pr with
                    | Except.error e =>
                      { writes := [jsonWrite 402 (RespBody.paymentError 1
                          (some (orFallback e "Payment settlement failed")) [pr] none)],
                        calls := callsPVS, result := WebhookResult.ok true none none }
                    | Except.ok sres =>
                      let hv := env.settleResponseHeader sres
                      let item : Item :=
                        { body := req.bodyTok, headers := req.headersTok,
                          query := req.queryTok,
                          payment := if cfg.includePaymentDetailsOpt = some true
                                     then some (syncMeta cfg) else none }
                      if cfg.responseMode = "responseNode" then
                        { writes := [], calls := callsPVS,
                          result := WebhookResult.ok false (some item) none }
                      else
                        { writes := [{ status := cfg.responseCode,
                                       headers := [("Content-Type", "application/json"),
                                                   ("X-PAYMENT-RESPONSE", hv)],
                                       body := RespBody.paymentOk "Payment verified and settled" }],
                          calls := callsPVS,
                          result := WebhookResult.ok true (some item) none }

end P2

namespace FormData

/-- One uploaded multipart file as produced by the form parser. -/
structure FormFile where
  filepath : String
  originalFilename : Option String
  newFilename : String
  mimetype : String
deriving DecidableEq

/-- A form field's value in `req.body.files`: a single file object or an
array of files (`Array.isArray(files[key])`). -/
inductive FilesEntry
  | single (f : FormFile)
  | array (fs : List FormFile)
deriving DecidableEq

/-- The binary attachment produced by `copyBinaryFile(filepath,
originalFilename ?? newFilename, mimetype)`. -/
structure BinaryData where
  fileName : String
  mimeType : String
  sourcePath : String
deriving DecidableEq

/-- The attachment built from one file. -/
def copyOf (f : FormFile) : BinaryData :=
  { fileName := f.originalFilename.getD f.newFilename,
    mimeType := f.mimetype, sourcePath := f.filepath }

/-- The observable per-file effects of `handleFormData`, in program order:
writing a named binary attachment onto the record, and deleting the staged
temporary file (`rm(file.filepath)`). -/
inductive FormEvent
  | copy (name : String) (data : BinaryData)
  | remove (filepath : String)
deriving DecidableEq

/-- `key.slice(0, -2)` applied when the field name ends in `[]`. -/
def stripBrackets (key : String) : String :=
  if key.endsWith "[]" then String.mk (key.data.dropLast.dropLast) else key

/-- The attachment name of one file: field key (brackets stripped), plus
the field-local index when the field holds an array, all overridden by
`options.binaryPropertyName` concatenated with the global file counter when
that option is set. -/
def attachmentName (bpn : Option String) (count : Nat) (key : String)
    (multi : Bool) (fileIdx : Nat) : String :=
  let base := stripBrackets key
  let base := if multi then base ++ toString fileIdx else base
  match bpn with
  | some p => p ++ toString count
  | none => base

/-- The files of one field and whether it was an array. -/
def filesOf : FilesEntry → List FormFile × Bool
  | FilesEntry.single f => ([f], false)
  | FilesEntry.array fs => (fs, true)

/-- Inner loop of `handleFormData` over one field's files, threading the
global counter `count` and the field-local counter `fileIdx`; returns the
events and the updated global counter. -/
def processFiles (bpn : Option String) (key : String) (multi : Bool) :
    List FormFile → Nat → Nat → List FormEvent × Nat
  | [], count, _ => ([], count)
  | f :: rest, count, fileIdx =>
    let name := attachmentName bpn count key multi fileIdx
    let next := processFiles bpn key multi rest (count + 1) (fileIdx + 1)
    (FormEvent.copy name (copyOf f) :: FormEvent.remove f.filepath :: next.1, next.2)

/-- Outer loop of `handleFormData` over the fields of `req.body.files`. -/
def processFields (bpn : Option String) :
    List (String × FilesEntry) → Nat → List FormEvent
  | [], _ => []
  | (key, entry) :: rest, count =>
    let fm := filesOf entry
    let step := processFiles bpn key fm.2 fm.1 count 0
    step.1 ++ processFields bpn rest step.2

/-- Embedding of `handleFormData` of `X402Webhook.node.ts`: the ordered
trace of attachment writes and temp-file removals it performs. -/
def handleFormData (bpn : Option String)
    (files : List (String × FilesEntry)) : List FormEvent :=
  processFields bpn files 0

/-- All uploaded files, in field order. -/
def allFiles (files : List (String × FilesEntry)) : List FormFile :=
  files.foldr (fun kv acc => (filesOf kv.2).1 ++ acc) []

/-- The trace consisting of, for each named file in order, an attachment
write immediately followed by the removal of its staged temporary file. -/
def pairTrace (l : List (String × FormFile)) : List FormEvent :=
  l.foldr (fun nf acc =>
    FormEvent.copy nf.1 (copyOf nf.2) :: FormEvent.remove nf.2.filepath :: acc) []

theorem pairTrace_append (a b : List (String × FormFile)) :
    pairTrace (a ++ b) = pairTrace a ++ pairTrace b := by
  induction a with
  | nil => rfl
  | cons x xs ih => simp [pairTrace] at ih ⊢; simp [ih]

theorem processFiles_pairTrace (bpn : Option String) (key : String) (multi : Bool)
    (fs : List FormFile) :
    ∀ count fileIdx, ∃ names : List String,
      names.length = fs.length ∧
      (processFiles bpn key multi fs count fileIdx).1 = pairTrace (names.zip fs) := by
  induction fs with
  | nil => intro count fileIdx; exact ⟨[], rfl, rfl⟩
  | cons f rest ih =>
    intro count fileIdx
    obtain ⟨names, hlen, htr⟩ := ih (count + 1) (fileIdx + 1)
    refine ⟨attachmentName bpn count key multi fileIdx :: names, by simp [hlen], ?_⟩
    simp [processFiles, htr, pairTrace]

theorem processFields_pairTrace (bpn : Option String)
    (files : List (String × FilesEntry)) :
    ∀ count, ∃ names : List String,
      names.length = (allFiles files).length ∧
      processFields bpn files count = pairTrace (names.zip (allFiles files)) := by
  induction files with
  | nil => intro count; exact ⟨[], rfl, rfl⟩
  | cons kv rest ih =>
    intro count
    obtain ⟨names₁, hlen₁, htr₁⟩ :=
      processFiles_pairTrace bpn kv.1 (filesOf kv.2).2 (filesOf kv.2).1 count 0
    obtain ⟨names₂, hlen₂, htr₂⟩ := ih (processFiles bpn kv.1 (filesOf kv.2).2 (filesOf kv.2).1 count 0).2
    refine ⟨names₁ ++ names₂, ?_, ?_⟩
    · simp [allFiles, hlen₁, hlen₂]
    · have hzip : (names₁ ++ names₂).zip ((filesOf kv.2).1 ++ allFiles rest) =
          names₁.zip (filesOf kv.2).1 ++ names₂.zip (allFiles rest) :=
        List.zip_append hlen₁
      calc processFields bpn (kv :: rest) count
          = (processFiles bpn kv.1 (filesOf kv.2).2 (filesOf kv.2).1 count 0).1 ++
            processFields bpn rest
              (processFiles bpn kv.1 (filesOf kv.2).2 (filesOf kv.2).1 count 0).2 := by
            rfl
        _ = pairTrace (names₁.zip (filesOf kv.2).1) ++ pairTrace (names₂.zip (allFiles rest)) := by
            rw [htr₁, htr₂]
        _ = pairTrace ((names₁ ++ names₂).zip (allFiles (kv :: rest))) := by
            rw [show allFiles (kv :: rest) = (filesOf kv.2).1 ++ allFiles rest from rfl,
              hzip, pairTrace_append]

theorem processFiles_indexed (key : String) (fs : List FormFile) :
    ∀ count fileIdx, (processFiles none key true fs count fileIdx).1 =
      pairTrace ((fs.enumFrom fileIdx).map
        (fun p => (stripBrackets key ++ toString p.1, p.2))) := by
  induction fs with
  | nil => intro count fileIdx; rfl
  | cons f rest ih =>
    intro count fileIdx
    simp [processFiles, ih (count + 1) (fileIdx + 1), pairTrace, List.enumFrom,
      attachmentName]

end FormData

/-- All values carried by `X-PAYMENT-RESPONSE` headers across a run's
response writes. -/
def xprValues (ws : List HttpWrite) : List String :=
  ws.foldr (fun w acc =>
    (w.headers.filterMap (fun kv =>
      if kv.1 = "X-PAYMENT-RESPONSE" then some kv.2 else none)) ++ acc) []

/-- A concrete asset with EIP-712 metadata, for witnesses. -/
def goodAsset : Asset :=
  { address := "0xa5se7000000000000000000000000000000000aa",
    eip712 := some { name := "USDC", version := "2" } }

/-- A concrete well-behaved oracle environment, for witnesses: price
conversion succeeds, the payment header decodes, verification reports
valid, settlement succeeds. -/
def goodEnv : Env :=
  { processPriceToAtomicAmount := fun _ _ => PriceResult.ok "500000" goodAsset,
    decodePayment := fun h => Except.ok { x402Version := 0, payload := h },
    verify := fun _ _ =>
      Except.ok { isValid := true, invalidReason := none,
                  payer := some "0x2222222222222222222222222222222222222222" },
    settle := fun _ _ => Except.ok { receipt := "receipt-base64" },
    settleResponseHeader := fun s => s.receipt }

/-- A concrete payment-gated node configuration, for witnesses. -/
def cfgBase : NodeTs.Config :=
  { nodeVersionTenths := 21, responseMode := "onReceived", requirePayment := true,
    facilitatorUrl := "https://facilitator.example",
    serverWalletAddress := "0x1111111111111111111111111111111111111111",
    price := "$0.50", network := Network.baseSepolia,
    paymentDescription := "Access to webhook endpoint",
    maxTimeoutSeconds := 60, settlementMode := "sync", includePaymentDetails := true,
    binaryData := false, ignoreBots := false, rawBody := false, responseData := none,
    ipWhitelist := none, webhookUrl := "https://n8n.example/webhook/abc/pay",
    isManualMode := false, connectedNodeTypes := [] }

/-- A concrete inbound request carrying a payment header, for witnesses. -/
def reqBase : NodeTs.Req :=
  { method := "POST", ip := some "198.51.100.7", ips := [], userAgentIsBot := false,
    xPayment := some "payment-header-b64", headersTok := "H", paramsTok := "P",
    queryTok := "Q", bodyTok := some "B", rawBodyTok := none,
    contentType := some "application/json", formBodyTok := none,
    auth := Except.ok none }

end Zynd

/-- C8: the claim says CIDR allowlist entries are evaluated by real
network/prefix arithmetic: an ip inside a listed range is admitted and one
outside every range (and matching no listed address) is rejected.  The
source's string-prefix shortcut violates both directions:
`10.0.31.5` lies inside `10.0.16.0/20` yet is rejected, and
`192.168.100.5` lies outside `192.168.1.0/24` yet is admitted. -/
theorem c8_cidr_matching_is_string_shortcut :
    Zynd.cidrContains "10.0.16.0/20" "10.0.31.5" = true ∧
    Zynd.isIpAllowed (some "10.0.16.0/20") [] (some "10.0.31.5") = false ∧
    Zynd.cidrContains "192.168.1.0/24" "192.168.100.5" = false ∧
    Zynd.isIpAllowed (some "192.168.1.0/24") [] (some "192.168.100.5") = true := by
  refine ⟨by decide, by decide, by decide, by decide⟩

open Zynd in
/-- C1: on a payment-required endpoint with a non-zero price and a
well-formed payment configuration, a request without the `X-PAYMENT` header
receives exactly one HTTP write: status 402 with body
`x402Version 1, error "X-PAYMENT header is required", accepts [r]` where
`r` is the single PaymentRequirements built from the configured
price/network/recipient; no verify or settle call is made and nothing is
forwarded to the workflow. -/
theorem c1_missing_header_402 (env : Env) (cfg : NodeTs.Config) (req : NodeTs.Req)
    (jwt : Option String) (amt : String) (asset : Asset) (meta : Eip712Meta)
    (hcheck : checkResponseModeConfiguration cfg.responseMode cfg.connectedNodeTypes =
      Except.ok ())
    (hip : isIpAllowed cfg.ipWhitelist req.ips req.ip = true)
    (hbot : (cfg.ignoreBots && req.userAgentIsBot) = false)
    (hauth : req.auth = Except.ok jwt)
    (hpay : cfg.requirePayment = true)
    (_hzero : isZeroPrice cfg.price = false)
    (hfac : cfg.facilitatorUrl ≠ "")
    (hwal : cfg.serverWalletAddress ≠ "")
    (hprice : env.processPriceToAtomicAmount cfg.price cfg.network =
      PriceResult.ok amt asset)
    (heip : asset.eip712 = some meta)
    (hhdr : req.xPayment = none) :
    NodeTs.webhook env cfg req =
      { writes := [jsonWrite 402 (RespBody.paymentError 1
          (some "X-PAYMENT header is required")
          [NodeTs.mkPaymentRequirements cfg amt asset.address meta] none)],
        calls := callsP,
        result := WebhookResult.ok true none none } := by
  unfold NodeTs.webhook NodeTs.webhookAfterCheck NodeTs.handleX402Payment
  by_cases h20 : 20 ≤ cfg.nodeVersionTenths <;>
    simp [h20, hcheck, hip, hbot, hauth, hpay, hfac, hwal, hprice, heip, hhdr]

open Zynd in
/-- Witness for C1 at a concrete configuration and request. -/
theorem c1_missing_header_402_witness :
    NodeTs.webhook goodEnv cfgBase { reqBase with xPayment := none } =
      { writes := [jsonWrite 402 (RespBody.paymentError 1
          (some "X-PAYMENT header is required")
          [NodeTs.mkPaymentRequirements cfgBase "500000" goodAsset.address
            { name := "USDC", version := "2" }] none)],
        calls := callsP,
        result := WebhookResult.ok true none none } :=
  c1_missing_header_402 goodEnv cfgBase { reqBase with xPayment := none }
    none "500000" goodAsset { name := "USDC", version := "2" }
    rfl (by decide) (by decide) rfl rfl (by decide)
    (by decide) (by decide) rfl rfl rfl

open Zynd in
/-- C2: in the sibling webhook implementation, any price matching the
zero-price pattern waives payment entirely, whatever the require-payment
option says: no price conversion, verification or settlement call happens,
no 402 is written, and the run goes straight to capture and delivery (the
captured record forwarded in responseNode mode, or an immediate response
carrying the captured data otherwise). -/
theorem c2_zero_price_waives_payment (env : Env) (cfg : P2.Config) (req : P2.Req)
    (hzero : isZeroPrice cfg.price = true) :
    P2.webhook env cfg req =
      (if cfg.responseMode = "responseNode" then
        { writes := [], calls := noCalls,
          result := WebhookResult.ok false (some (P2.freeItem req)) none }
      else
        { writes := [{ status := cfg.responseCode, headers := ctJson,
                       body := RespBody.freeData req.bodyTok req.headersTok req.queryTok }],
          calls := noCalls, result := WebhookResult.ok true none none }) := by
  unfold P2.webhook
  simp [hzero]

open Zynd in
/-- Witness for C2: price `$0.00` with the require-payment option
explicitly enabled, in immediate-response mode. -/
theorem c2_zero_price_waives_payment_witness :
    P2.webhook goodEnv
      { responseMode := "onReceived", responseCode := 200, price := "$0.00",
        facilitatorUrl := "https://facilitator.example",
        serverWalletAddress := "0x1111111111111111111111111111111111111111",
        network := Network.baseSepolia, requirePaymentOpt := some true,
        descriptionOpt := none, mimeTypeOpt := none, maxTimeoutSecondsOpt := none,
        includePaymentDetailsOpt := some true, settlementModeOpt := some "sync",
        webhookUrl := "https://n8n.example/webhook/abc/pay" }
      { xPayment := none, bodyTok := "B", headersTok := "H", queryTok := "Q" } =
      (if ("onReceived" : String) = "responseNode" then
        { writes := [], calls := noCalls,
          result := WebhookResult.ok false
            (some (P2.freeItem { xPayment := none, bodyTok := "B", headersTok := "H",
                                 queryTok := "Q" })) none }
      else
        { writes := [{ status := 200, headers := ctJson,
                       body := RespBody.freeData "B" "H" "Q" }],
          calls := noCalls, result := WebhookResult.ok true none none }) :=
  c2_zero_price_waives_payment goodEnv _ _ (by decide)

open Zynd in
/-- C3 counterexample: with synchronous settlement, response mode
`responseNode`, and a facilitator whose settle call succeeds, the
settlement is performed (`settleSync = true`) yet the webhook commits no
HTTP write at all — so no `X-PAYMENT-RESPONSE` header is attached, refuting
"under every configured response mode, a successful settlement attaches the
X-PAYMENT-RESPONSE header". -/
theorem c3_responseNode_attaches_no_header :
    (NodeTs.handleX402Payment goodEnv { cfgBase with responseMode := "responseNode" }
      reqBase none).calls.settleSync = true ∧
    (NodeTs.handleX402Payment goodEnv { cfgBase with responseMode := "responseNode" }
      reqBase none).writes = [] :=
  ⟨rfl, rfl⟩

open Zynd in
/-- C3 amended: on the verified-payment path, the `X-PAYMENT-RESPONSE`
values attached across the run's writes are: none in asynchronous mode
(whatever the settle outcome `so` is — the run does not depend on it);
in synchronous mode, exactly the header derived from the settlement
receipt when settlement succeeds and the response mode is `onReceived` or
`streaming`, and none in `responseNode` mode (the webhook writes no
response itself there) or when settlement fails. -/
theorem c3_payment_response_header_by_mode (env : Env) (cfg : NodeTs.Config)
    (req : NodeTs.Req) (jwt : Option String) (amt : String) (asset : Asset)
    (meta : Eip712Meta) (hdr : String) (p0 : PaymentPayload) (vr : VerifyResult)
    (so : Except String SettleResult)
    (hfac : cfg.facilitatorUrl ≠ "")
    (hwal : cfg.serverWalletAddress ≠ "")
    (hprice : env.processPriceToAtomicAmount cfg.price cfg.network =
      PriceResult.ok amt asset)
    (heip : asset.eip712 = some meta)
    (hhdr : req.xPayment = some hdr)
    (hdec : env.decodePayment hdr = Except.ok p0)
    (hverify : env.verify { p0 with x402Version := 1 }
      (NodeTs.mkPaymentRequirements cfg amt asset.address meta) = Except.ok vr)
    (hvalid : vr.isValid = true)
    (hset : env.settle { p0 with x402Version := 1 }
      (NodeTs.mkPaymentRequirements cfg amt asset.address meta) = so) :
    xprValues (NodeTs.handleX402Payment env cfg req jwt).writes =
      (if cfg.settlementMode = "async" then []
       else match so with
         | Except.ok sres =>
           if cfg.responseMode = "responseNode" then []
           else [env.settleResponseHeader sres]
         | Except.error _ => []) := by
  unfold NodeTs.handleX402Payment
  simp [hfac, hwal, hprice, heip, hhdr, hdec, hverify, hvalid]
  by_cases hA : cfg.settlementMode = "async"
  · by_cases hR : cfg.responseMode = "responseNode" <;>
      by_cases hS : cfg.responseMode = "streaming" <;>
        simp [hA, hR, hS, xprValues, streamHeaders, jsonWrite, ctJson]
  · rw [hset]
    cases so with
    | error e =>
      simp [hA, xprValues, jsonWrite, ctJson]
    | ok sres =>
      by_cases hR : cfg.responseMode = "responseNode" <;>
        by_cases hS : cfg.responseMode = "streaming" <;>
          simp [hA, hR, hS, xprValues, streamHeaders, jsonWrite, ctJson]

open Zynd in
/-- Witness for the amended C3: synchronous settlement in `onReceived`
mode attaches exactly the receipt-derived header value. -/
theorem c3_payment_response_header_by_mode_witness :
    xprValues (NodeTs.handleX402Payment goodEnv cfgBase reqBase none).writes =
      ["receipt-base64"] :=
  (c3_payment_response_header_by_mode goodEnv cfgBase reqBase none
    "500000" goodAsset { name := "USDC", version := "2" } "payment-header-b64"
    { x402Version := 0, payload := "payment-header-b64" }
    { isValid := true, invalidReason := none,
      payer := some "0x2222222222222222222222222222222222222222" }
    (Except.ok { receipt := "receipt-base64" })
    (by decide) (by decide) rfl rfl rfl rfl rfl rfl rfl).trans (by decide)

open Zynd in
/-- A sibling-implementation configuration for the asynchronous
`responseNode` scenario. -/
def cfgP2Async : P2.Config :=
  { responseMode := "responseNode", responseCode := 200, price := "$0.50",
    facilitatorUrl := "https://facilitator.example",
    serverWalletAddress := "0x1111111111111111111111111111111111111111",
    network := Network.baseSepolia, requirePaymentOpt := some true,
    descriptionOpt := none, mimeTypeOpt := none, maxTimeoutSecondsOpt := none,
    includePaymentDetailsOpt := some true, settlementModeOpt := some "async",
    webhookUrl := "https://n8n.example/webhook/abc/pay" }

open Zynd in
/-- C4 failing input: asynchronous settlement mode with response mode
`responseNode` (the `streaming` mode behaves the same way).  The payment
is verified and the request is admitted with metadata marked verified but
not settled — but no settle call is fired at all, neither detached nor
awaited, because the branch returns before the `settle(...)` statement.
The sibling implementation (`P2`, which fires the detached settle before
branching on the response mode) does spawn it on the same input, showing
the intended behaviour. -/
theorem c4_async_settlement_never_fired_responseNode :
    (NodeTs.handleX402Payment goodEnv
      { cfgBase with settlementMode := "async", responseMode := "responseNode" }
      reqBase none).calls.settleAsync = false ∧
    (NodeTs.handleX402Payment goodEnv
      { cfgBase with settlementMode := "async", responseMode := "responseNode" }
      reqBase none).calls.settleSync = false ∧
    (NodeTs.handleX402Payment goodEnv
      { cfgBase with settlementMode := "async", responseMode := "responseNode" }
      reqBase none).result = WebhookResult.ok false
        (some { headers := "H", params := "P", query := "Q",
                body := NodeTs.CapturedBody.parsed (some "B"), rawBinary := false,
                webhookUrl := "https://n8n.example/webhook/abc/pay",
                executionMode := "production", jwt := none,
                payment := some { verified := true, settled := none,
                                  network := Network.baseSepolia, price := "$0.50",
                                  payTo := "0x1111111111111111111111111111111111111111",
                                  settlementMode := "async" } }) none ∧
    (NodeTs.handleX402Payment goodEnv
      { cfgBase with settlementMode := "async", responseMode := "streaming" }
      reqBase none).calls.settleAsync = false ∧
    (P2.webhook goodEnv cfgP2Async
      { xPayment := some "payment-header-b64", bodyTok := "B", headersTok := "H",
        queryTok := "Q" }).calls.settleAsync = true := by
  refine ⟨rfl, rfl, by decide, rfl, by decide⟩

open Zynd in
/-- C5: in synchronous settlement mode, when the settle call rejects with
message `e`, the request is not admitted: the only HTTP write is a 402
whose body carries the settlement failure reason and `accepts` with the
single requirements object, and no workflow data is forwarded — under
every response mode. -/
theorem c5_sync_settle_failure_rejects (env : Env) (cfg : NodeTs.Config)
    (req : NodeTs.Req) (jwt : Option String) (amt : String) (asset : Asset)
    (meta : Eip712Meta) (hdr : String) (p0 : PaymentPayload) (vr : VerifyResult)
    (e : String)
    (hfac : cfg.facilitatorUrl ≠ "")
    (hwal : cfg.serverWalletAddress ≠ "")
    (hprice : env.processPriceToAtomicAmount cfg.price cfg.network =
      PriceResult.ok amt asset)
    (heip : asset.eip712 = some meta)
    (hhdr : req.xPayment = some hdr)
    (hdec : env.decodePayment hdr = Except.ok p0)
    (hverify : env.verify { p0 with x402Version := 1 }
      (NodeTs.mkPaymentRequirements cfg amt asset.address meta) = Except.ok vr)
    (hvalid : vr.isValid = true)
    (hsync : cfg.settlementMode = "sync")
    (hset : env.settle { p0 with x402Version := 1 }
      (NodeTs.mkPaymentRequirements cfg amt asset.address meta) = Except.error e)
    (hne : e ≠ "") :
    NodeTs.handleX402Payment env cfg req jwt =
      { writes := [jsonWrite 402 (RespBody.paymentError 1 (some e)
          [NodeTs.mkPaymentRequirements cfg amt asset.address meta] none)],
        calls := callsPVS,
        result := WebhookResult.ok true none none } := by
  unfold NodeTs.handleX402Payment
  simp [hfac, hwal, hprice, heip, hhdr, hdec, hverify, hvalid, hsync, hset,
    orFallback, hne]

open Zynd in
/-- Witness for C5: a concrete facilitator whose settle call rejects. -/
theorem c5_sync_settle_failure_rejects_witness :
    NodeTs.handleX402Payment
      { goodEnv with settle := fun _ _ => Except.error "insufficient allowance" }
      cfgBase reqBase none =
      { writes := [jsonWrite 402 (RespBody.paymentError 1
          (some "insufficient allowance")
          [NodeTs.mkPaymentRequirements cfgBase "500000" goodAsset.address
            { name := "USDC", version := "2" }] none)],
        calls := callsPVS,
        result := WebhookResult.ok true none none } :=
  c5_sync_settle_failure_rejects
    { goodEnv with settle := fun _ _ => Except.error "insufficient allowance" }
    cfgBase reqBase none "500000" goodAsset { name := "USDC", version := "2" }
    "payment-header-b64" { x402Version := 0, payload := "payment-header-b64" }
    { isValid := true, invalidReason := none,
      payer := some "0x2222222222222222222222222222222222222222" }
    "insufficient allowance"
    (by decide) (by decide) rfl rfl rfl rfl rfl rfl rfl rfl (by decide)

open Zynd in
/-- C7: when the remote verify call itself throws with message `e`, the
webhook responds with a single 402 write whose body surfaces `e` and
re-attaches `accepts` with the same requirements object, forwarding
nothing; stated on the full webhook pipeline with admission passing. -/
theorem c7_verify_throw_402_with_accepts (env : Env) (cfg : NodeTs.Config)
    (req : NodeTs.Req) (jwt : Option String) (amt : String) (asset : Asset)
    (meta : Eip712Meta) (hdr : String) (p0 : PaymentPayload) (e : String)
    (hcheck : checkResponseModeConfiguration cfg.responseMode cfg.connectedNodeTypes =
      Except.ok ())
    (hip : isIpAllowed cfg.ipWhitelist req.ips req.ip = true)
    (hbot : (cfg.ignoreBots && req.userAgentIsBot) = false)
    (hauth : req.auth = Except.ok jwt)
    (hpay : cfg.requirePayment = true)
    (hfac : cfg.facilitatorUrl ≠ "")
    (hwal : cfg.serverWalletAddress ≠ "")
    (hprice : env.processPriceToAtomicAmount cfg.price cfg.network =
      PriceResult.ok amt asset)
    (heip : asset.eip712 = some meta)
    (hhdr : req.xPayment = some hdr)
    (hdec : env.decodePayment hdr = Except.ok p0)
    (hverify : env.verify { p0 with x402Version := 1 }
      (NodeTs.mkPaymentRequirements cfg amt asset.address meta) = Except.error e)
    (hne : e ≠ "") :
    NodeTs.webhook env cfg req =
      { writes := [jsonWrite 402 (RespBody.paymentError 1 (some e)
          [NodeTs.mkPaymentRequirements cfg amt asset.address meta] none)],
        calls := callsPV,
        result := WebhookResult.ok true none none } := by
  unfold NodeTs.webhook NodeTs.webhookAfterCheck NodeTs.handleX402Payment
  by_cases h20 : 20 ≤ cfg.nodeVersionTenths <;>
    simp [h20, hcheck, hip, hbot, hauth, hpay, hfac, hwal, hprice, heip, hhdr,
      hdec, hverify, orFallback, hne]

open Zynd in
/-- Witness for C7: the facilitator is unreachable, the verify call throws
a network error. -/
theorem c7_verify_throw_402_with_accepts_witness :
    NodeTs.webhook
      { goodEnv with verify := fun _ _ => Except.error "connect ECONNREFUSED" }
      cfgBase reqBase =
      { writes := [jsonWrite 402 (RespBody.paymentError 1
          (some "connect ECONNREFUSED")
          [NodeTs.mkPaymentRequirements cfgBase "500000" goodAsset.address
            { name := "USDC", version := "2" }] none)],
        calls := callsPV,
        result := WebhookResult.ok true none none } :=
  c7_verify_throw_402_with_accepts
    { goodEnv with verify := fun _ _ => Except.error "connect ECONNREFUSED" }
    cfgBase reqBase none "500000" goodAsset { name := "USDC", version := "2" }
    "payment-header-b64" { x402Version := 0, payload := "payment-header-b64" }
    "connect ECONNREFUSED"
    rfl (by decide) (by decide) rfl rfl (by decide) (by decide)
    rfl rfl rfl rfl rfl (by decide)

open Zynd in
/-- C6 counterexample: while the facilitator is unreachable (the remote
verify call throws a connection error) the webhook's terminal response has
status 402, not 500 — refuting "the terminal response is a 500
Configuration Error, never a 402". -/
theorem c6_unreachable_facilitator_gives_402 :
    ((NodeTs.handleX402Payment
      { goodEnv with verify := fun _ _ => Except.error "connect ECONNREFUSED" }
      cfgBase reqBase none).writes.map (fun w => w.status)) = [402] := by
  decide

open Zynd in
/-- C6 amended: an unreachable facilitator is treated as a payment failure,
not a server failure — the single write is a 402 surfacing the thrown
message with `accepts` re-attached — and a malformed allowlist entry does
not produce a 500 either: a CIDR entry whose network part has no dot (such
as `bad-entry/8`) makes the filter admit any client ip. -/
theorem c6_unreachable_and_malformed_allowlist (env : Env) (cfg : NodeTs.Config)
    (req : NodeTs.Req) (jwt : Option String) (amt : String) (asset : Asset)
    (meta : Eip712Meta) (hdr : String) (p0 : PaymentPayload) (e : String)
    (hfac : cfg.facilitatorUrl ≠ "")
    (hwal : cfg.serverWalletAddress ≠ "")
    (hprice : env.processPriceToAtomicAmount cfg.price cfg.network =
      PriceResult.ok amt asset)
    (heip : asset.eip712 = some meta)
    (hhdr : req.xPayment = some hdr)
    (hdec : env.decodePayment hdr = Except.ok p0)
    (hverify : env.verify { p0 with x402Version := 1 }
      (NodeTs.mkPaymentRequirements cfg amt asset.address meta) = Except.error e)
    (hne : e ≠ "") :
    (NodeTs.handleX402Payment env cfg req jwt).writes =
      [jsonWrite 402 (RespBody.paymentError 1 (some e)
        [NodeTs.mkPaymentRequirements cfg amt asset.address meta] none)] ∧
    isIpAllowed (some "bad-entry/8") [] (some "203.0.113.7") = true := by
  constructor
  · unfold NodeTs.handleX402Payment
    simp [hfac, hwal, hprice, heip, hhdr, hdec, hverify, orFallback, hne]
  · decide

open Zynd in
/-- Witness for the amended C6 at a concrete unreachable facilitator. -/
theorem c6_unreachable_and_malformed_allowlist_witness :
    (NodeTs.handleX402Payment
      { goodEnv with verify := fun _ _ => Except.error "connect ECONNREFUSED" }
      cfgBase reqBase none).writes =
      [jsonWrite 402 (RespBody.paymentError 1 (some "connect ECONNREFUSED")
        [NodeTs.mkPaymentRequirements cfgBase "500000" goodAsset.address
          { name := "USDC", version := "2" }] none)] ∧
    isIpAllowed (some "bad-entry/8") [] (some "203.0.113.7") = true :=
  c6_unreachable_and_malformed_allowlist
    { goodEnv with verify := fun _ _ => Except.error "connect ECONNREFUSED" }
    cfgBase reqBase none "500000" goodAsset { name := "USDC", version := "2" }
    "payment-header-b64" { x402Version := 0, payload := "payment-header-b64" }
    "connect ECONNREFUSED"
    (by decide) (by decide) rfl rfl rfl rfl rfl (by decide)

open Zynd in
/-- C9: on node versions at least 2, when `responseNode` mode is selected
without a connected responder, or a responder is connected while a
different non-streaming mode is selected, the configuration check fails
and the webhook throws that configuration error before any request
processing: no HTTP write, no payment call, no forwarded data. -/
theorem c9_response_mode_misconfiguration_fails_fast (env : Env)
    (cfg : NodeTs.Config) (req : NodeTs.Req)
    (hver : 20 ≤ cfg.nodeVersionTenths)
    (hbad : (cfg.responseMode = "responseNode" ∧
              respondToWebhookConnected cfg.connectedNodeTypes = false) ∨
            (respondToWebhookConnected cfg.connectedNodeTypes = true ∧
              cfg.responseMode ≠ "responseNode" ∧ cfg.responseMode ≠ "streaming")) :
    checkResponseModeConfiguration cfg.responseMode cfg.connectedNodeTypes =
      Except.error (if cfg.responseMode = "responseNode" then noResponderMessage
                    else unusedResponderMessage) ∧
    NodeTs.webhook env cfg req =
      { writes := [], calls := noCalls,
        result := WebhookResult.thrown
          (if cfg.responseMode = "responseNode" then noResponderMessage
           else unusedResponderMessage) } := by
  have hchk : checkResponseModeConfiguration cfg.responseMode cfg.connectedNodeTypes =
      Except.error (if cfg.responseMode = "responseNode" then noResponderMessage
                    else unusedResponderMessage) := by
    rcases hbad with ⟨hm, hc⟩ | ⟨hc, hm1, hm2⟩
    · simp [checkResponseModeConfiguration, hc, hm]
    · simp [checkResponseModeConfiguration, hc, hm1, hm2]
  refine ⟨hchk, ?_⟩
  unfold NodeTs.webhook
  simp [hver, hchk]

open Zynd in
/-- Witness for C9: `responseNode` mode with no connected responder. -/
theorem c9_response_mode_misconfiguration_fails_fast_witness :
    checkResponseModeConfiguration
      ({ cfgBase with responseMode := "responseNode" } : NodeTs.Config).responseMode
      ({ cfgBase with responseMode := "responseNode" } : NodeTs.Config).connectedNodeTypes =
      Except.error noResponderMessage ∧
    NodeTs.webhook goodEnv { cfgBase with responseMode := "responseNode" } reqBase =
      { writes := [], calls := noCalls,
        result := WebhookResult.thrown noResponderMessage } :=
  c9_response_mode_misconfiguration_fails_fast goodEnv
    { cfgBase with responseMode := "responseNode" } reqBase
    (by decide) (Or.inl ⟨rfl, rfl⟩)

open Zynd in
/-- C10: multipart capture — for every field set, the trace of
`handleFormData` is exactly an attachment write per uploaded file, each
immediately followed by the removal of that file's staged temporary file
(first conjunct, with some list of attachment names); and for a field
holding an array of files (no `binaryPropertyName` override), the
attachment names are the field key with brackets stripped and the
file's numeric index appended (second conjunct). -/
theorem c10_formdata_attachments (bpn : Option String)
    (files : List (String × FormData.FilesEntry)) (key : String)
    (fs : List FormData.FormFile) :
    (∃ names : List String, names.length = (FormData.allFiles files).length ∧
      FormData.handleFormData bpn files =
        FormData.pairTrace (names.zip (FormData.allFiles files))) ∧
    FormData.handleFormData none [(key, FormData.FilesEntry.array fs)] =
      FormData.pairTrace ((fs.enum).map
        (fun p => (FormData.stripBrackets key ++ toString p.1, p.2))) := by
  constructor
  · exact FormData.processFields_pairTrace bpn files 0
  · show FormData.processFields none [(key, FormData.FilesEntry.array fs)] 0 = _
    simp [FormData.processFields, FormData.processFiles_indexed key fs 0 0,
      FormData.filesOf, List.enum]

open Zynd in
/-- C9 counterexample: on node version 1 (`nodeVersionTenths = 10`) the
webhook skips the response-mode configuration check.  With `responseNode`
selected and no responder connected — a configuration the check would
reject (first conjunct) — the webhook throws nothing, writes nothing, and
silently forwards the captured record at request time (second conjunct),
refuting the unqualified "fails fast with a configuration error before
request processing". -/
theorem c9_v1_skips_configuration_check :
    checkResponseModeConfiguration "responseNode" [] =
      Except.error noResponderMessage ∧
    NodeTs.webhook goodEnv
      { cfgBase with nodeVersionTenths := 10, responseMode := "responseNode",
                     requirePayment := false }
      reqBase =
      { writes := [], calls := noCalls,
        result := WebhookResult.ok false
          (some { headers := "H", params := "P", query := "Q",
                  body := NodeTs.CapturedBody.parsed (some "B"), rawBinary := false,
                  webhookUrl := "https://n8n.example/webhook/abc/pay",
                  executionMode := "production", jwt := none, payment := none })
          none } :=
  ⟨rfl, by decide⟩
